import Mathlib

/-
Verification of the stream-registry (MeasurementsDialog) and capture-coordinator
(WaveformThread) core of the scopehal-apps repository, as a shallow embedding.

Sources embedded:
  src/src/ngscopeclient/MeasurementsDialog.cpp
    AddStream (lines 205-217), RemoveStream (lines 193-200),
    the move handler inside DoRender (lines 147-166).
  src/src/ngscopeclient/WaveformThread.cpp
    the WaveformThread loop (lines 44-73) and the two Event globals (lines 41-42).

The MeasurementsDialog header is not among the sources; field types are taken
from their uses in the .cpp file and from the spec: m_streams is a vector of
StreamDescriptor (ordered sequence) and m_streamset is a set of StreamDescriptor
(dedup set). HasStream and the Event class are likewise declared elsewhere and
are modelled from the spec where noted.
-/

namespace NgScope

/-- Model of a channel object (scopehal InstrumentChannel). The field id is the
object identity (the pointer value); the field osc records whether the object is
an OscilloscopeChannel, i.e. whether the dynamic_cast used by the dialog
succeeds. The spec calls reference-countable channels simply Channels. -/
structure Channel where
  id : Nat
  osc : Bool
deriving DecidableEq

/-- Model of scopehal StreamDescriptor: a (channel pointer, output index) pair
with structural equality. m_channel is an Option so that the null pointer
(m_channel = none) is representable: the implicit C++ conversion
StreamDescriptor(ochan, 0) can be applied to a null OscilloscopeChannel
pointer in RemoveStream. -/
structure StreamDescriptor where
  m_channel : Option Channel
  m_stream : Nat
deriving DecidableEq

/-- State of MeasurementsDialog: exactly the two collections the .cpp file
mutates. m_streams is the ordered sequence (std vector, display order) and
m_streamset the dedup set (std set). The types are taken from their uses
(push_back, operator[], erase(begin()+i), insert / emplace, erase, find). -/
structure MeasurementsDialog where
  m_streams : List StreamDescriptor
  m_streamset : Finset StreamDescriptor
deriving DecidableEq

/-- The freshly constructed dialog: both containers default-construct empty
(MeasurementsDialog.cpp lines 44-49 initialise neither field). -/
def emptyDialog : MeasurementsDialog :=
  { m_streams := [], m_streamset := ∅ }

/-- Result of dynamic_cast to OscilloscopeChannel, applied to a possibly null
channel pointer: the cast yields the same pointer when the object is an
OscilloscopeChannel and null otherwise. -/
def dynCastOsc : Option Channel → Option Channel
  | some c => if c.osc then some c else none
  | none => none

/-- Modelled from the spec: MeasurementsDialog.HasStream is declared in the
header (not among the sources). Per the spec, presence of a descriptor is
checked via the dedup set, a set membership test. -/
def HasStream (d : MeasurementsDialog) (stream : StreamDescriptor) : Bool :=
  decide (stream ∈ d.m_streamset)

/-- MeasurementsDialog.AddStream (lines 205-217): if HasStream, return without
any change (the duplicate is silently ignored); otherwise push_back onto
m_streams, emplace into m_streamset. The AddRef on the dynamic_cast result is
an effect on the external channel object and is modelled separately by
refDelta below. -/
def AddStream (d : MeasurementsDialog) (stream : StreamDescriptor) : MeasurementsDialog :=
  if HasStream d stream then d
  else
    { m_streams := d.m_streams ++ [stream],
      m_streamset := insert stream d.m_streamset }

/-- MeasurementsDialog.RemoveStream (lines 193-200). The function performs no
bounds check: m_streams[i] on an out-of-range i is an out-of-bounds vector
access with no defined result, modelled as none. For a valid i it computes
ochan := dynamic_cast to OscilloscopeChannel of m_streams[i].m_channel, then
calls m_streamset.erase(ochan): ochan is a channel pointer, which converts
implicitly to StreamDescriptor(ochan, stream index 0), so the erased key is
the descriptor (ochan, 0), not m_streams[i]. Finally it erases position i from
m_streams. The Release on ochan is modelled by refDelta below. -/
def RemoveStream (d : MeasurementsDialog) (i : Nat) : Option MeasurementsDialog :=
  match d.m_streams[i]? with
  | none => none
  | some s =>
      some { m_streams := d.m_streams.eraseIdx i,
             m_streamset :=
               d.m_streamset.erase { m_channel := dynCastOsc s.m_channel, m_stream := 0 } }

/-- The move handler of MeasurementsDialog.DoRender (lines 147-166): erase the
first occurrence of moveStream from m_streams (the for loop with break),
emplace moveStream into m_streamset, and insert moveStream into m_streams at
moveDest. moveDest is the index of the drop-target row, hence an index of an
existing row: moveDest < size of m_streams when the move is registered (the
callers of this definition carry that bound). No reference count call occurs
anywhere in this code path. -/
def MoveStream (d : MeasurementsDialog) (moveStream : StreamDescriptor)
    (moveDest : Nat) : MeasurementsDialog :=
  { m_streams := (d.m_streams.erase moveStream).insertIdx moveDest moveStream,
    m_streamset := insert moveStream d.m_streamset }

/-- The three UI-driven registry operations of the spec, as delivered by the
dialog: AddStream (drop onto the empty table or programmatic add), RemoveStream
(the Delete context-menu item), and the move handler (drag onto row moveDest). -/
inductive Op where
  | add : StreamDescriptor → Op
  | remove : Nat → Op
  | move : StreamDescriptor → Nat → Op
deriving DecidableEq

/-- One UI action applied to the dialog state. A remove with an out-of-range
position has no defined result (see RemoveStream). A move is only ever
delivered with moveDest an index of an existing row, so other values of
moveDest do not occur and are given no defined result either. -/
def step (d : MeasurementsDialog) : Op → Option MeasurementsDialog
  | Op.add s => some (AddStream d s)
  | Op.remove i => RemoveStream d i
  | Op.move s dest =>
      if dest < d.m_streams.length then some (MoveStream d s dest) else none

/-- Run a sequence of UI actions from a starting state; none when some action
along the way has no defined result. -/
def runFrom (d : MeasurementsDialog) : List Op → Option MeasurementsDialog
  | [] => some d
  | op :: rest =>
      match step d op with
      | some d2 => runFrom d2 rest
      | none => none

/-- Net effect of one operation on the reference count of channel c, read off
the AddRef and Release calls in the source: AddStream does AddRef on the
dynamic_cast result when the descriptor was not already present (lines
214-216); RemoveStream does Release on the dynamic_cast result when it is non
null (lines 197-198); the move handler contains no reference count call. -/
def refDelta (d : MeasurementsDialog) (op : Op) (c : Channel) : Int :=
  match op with
  | Op.add s =>
      if HasStream d s then 0
      else
        match dynCastOsc s.m_channel with
        | some c0 => if c0 = c then 1 else 0
        | none => 0
  | Op.remove i =>
      match d.m_streams[i]? with
      | none => 0
      | some s =>
          match dynCastOsc s.m_channel with
          | some c0 => if c0 = c then -1 else 0
          | none => 0
  | Op.move _ _ => 0

/-- Total number of references the registry has acquired minus released on
channel c over a sequence of operations: the sum of refDelta along the run. -/
def refsFrom (d : MeasurementsDialog) (c : Channel) : List Op → Int
  | [] => 0
  | op :: rest =>
      refDelta d op c +
        (match step d op with
         | some d2 => refsFrom d2 c rest
         | none => 0)

/-- Counting function written from the words of the spec claim: an Add call for
a descriptor of channel c that was not a no-op counts +1, a successful (i.e.
in-range) Remove call whose removed descriptor belongs to channel c counts -1,
a Move call counts 0. -/
def specCount (d : MeasurementsDialog) (op : Op) (c : Channel) : Int :=
  match op with
  | Op.add s => if HasStream d s = false ∧ s.m_channel = some c then 1 else 0
  | Op.remove i =>
      match d.m_streams[i]? with
      | none => 0
      | some s => if s.m_channel = some c then -1 else 0
  | Op.move _ _ => 0

/-- Sum of specCount along the run of a sequence of operations. -/
def specNet (d : MeasurementsDialog) (c : Channel) : List Op → Int
  | [] => 0
  | op :: rest =>
      specCount d op c +
        (match step d op with
         | some d2 => specNet d2 c rest
         | none => 0)

/-- Coherence invariant claimed by the spec for the registry: the multiset of
descriptors in the ordered sequence equals the contents of the dedup set, and
no descriptor appears twice in the sequence. -/
def Coherent (d : MeasurementsDialog) : Prop :=
  (d.m_streams : Multiset StreamDescriptor) = d.m_streamset.val ∧ d.m_streams.Nodup

instance (d : MeasurementsDialog) : Decidable (Coherent d) :=
  decidable_of_iff
    ((d.m_streams : Multiset StreamDescriptor) = d.m_streamset.val ∧ d.m_streams.Nodup)
    Iff.rfl

/-
Capture coordinator: WaveformThread.cpp lines 44-73.

  while(!*shuttingDown)
  {
    if(!session->CheckForPendingWaveforms())
      { this_thread::sleep_for(chrono::milliseconds(1)); continue; }
    session->DownloadWaveforms();
    g_waveformReadyEvent.Signal();
    g_waveformProcessedEvent.Block();
  }

The loop is embedded as a small-step machine. Phases: checkShutdown is the top
of the while loop (the only read of the shutdown flag), polling is the
CheckForPendingWaveforms call, downloading covers DownloadWaveforms plus the
Signal on the ready event, awaitingConsumer is the Block on the processed
event, terminated is loop exit. The external world is given by oracles: shut k
is the value of the atomic shuttingDown flag at its k-th read, poll k the
result of the k-th CheckForPendingWaveforms call, and processedReady tells
whether the processed event is signaled while the thread is blocked (the Block
call returns only when it is). -/

/-- Control point of the WaveformThread loop. -/
inductive Phase where
  | checkShutdown
  | polling
  | downloading
  | awaitingConsumer
  | terminated
deriving DecidableEq

/-- State of the coordinator: current control point plus how many reads of the
shutdown flag and how many poll calls have happened so far. -/
structure CoordState where
  phase : Phase
  shutReads : Nat
  pollCalls : Nat
deriving DecidableEq

/-- Observable actions of the coordinator: the 1 ms sleep_for call, the
DownloadWaveforms call, the Signal on the ready event, and the return of the
Block on the processed event. -/
inductive CoordEvent where
  | sleep1ms
  | download
  | signalReady
  | wakeProcessed
deriving DecidableEq

/-- One small step of the WaveformThread loop, with the events it emits.
checkShutdown reads the flag (incrementing shutReads) and either exits the loop
or proceeds to the poll; a failed poll sleeps 1 ms and goes back to the top of
the loop; a successful poll downloads, signals ready and blocks; a blocked
thread stays blocked (no step effect) until the processed event is signaled;
a terminated thread stays terminated. -/
def coordStep (shut poll : Nat → Bool) (processedReady : Bool)
    (s : CoordState) : CoordState × List CoordEvent :=
  match s.phase with
  | Phase.checkShutdown =>
      if shut s.shutReads then
        ({ s with phase := Phase.terminated, shutReads := s.shutReads + 1 }, [])
      else
        ({ s with phase := Phase.polling, shutReads := s.shutReads + 1 }, [])
  | Phase.polling =>
      if poll s.pollCalls then
        ({ s with phase := Phase.downloading, pollCalls := s.pollCalls + 1 }, [])
      else
        ({ s with phase := Phase.checkShutdown, pollCalls := s.pollCalls + 1 },
         [CoordEvent.sleep1ms])
  | Phase.downloading =>
      ({ s with phase := Phase.awaitingConsumer },
       [CoordEvent.download, CoordEvent.signalReady])
  | Phase.awaitingConsumer =>
      if processedReady then
        ({ s with phase := Phase.checkShutdown }, [CoordEvent.wakeProcessed])
      else
        (s, [])
  | Phase.terminated => (s, [])

/-- Iterate coordStep n times, concatenating the emitted events. -/
def coordSteps (shut poll : Nat → Bool) (processedReady : Bool) :
    Nat → CoordState → CoordState × List CoordEvent
  | 0, s => (s, [])
  | n + 1, s =>
      let r := coordStep shut poll processedReady s
      let r2 := coordSteps shut poll processedReady n r.1
      (r2.1, r.2 ++ r2.2)

/-- Initial coordinator state: the thread enters the loop at its top, having
read nothing yet. -/
def coordInit : CoordState :=
  { phase := Phase.checkShutdown, shutReads := 0, pollCalls := 0 }

/-- Oracle: the shutdown flag is never set. -/
def shutNever : Nat → Bool := fun _ => false

/-- Oracle: the shutdown flag is set (reads true from the start). -/
def shutAlways : Nat → Bool := fun _ => true

/-- Oracle: every poll reports not ready. -/
def pollNever : Nat → Bool := fun _ => false

/-- Oracle: the first three polls report not ready, every later poll reports
ready. -/
def pollFFFT : Nat → Bool := fun k => decide (3 ≤ k)

/-
Handshake primitive. Modelled from the spec: the Event class behind
g_waveformReadyEvent and g_waveformProcessedEvent (WaveformThread.cpp lines
41-42) is declared in a header that is not among the sources. Per the spec it
is a two-state binary auto-resetting signal: Signal marks it signaled,
coalescing repeated signals; Block returns as soon as the state is signaled,
resetting it to idle, and returns immediately when it is already signaled. -/

/-- The two states of the handshake primitive. -/
inductive EventState where
  | idle
  | signaled
deriving DecidableEq

/-- Modelled from the spec: Signal marks the primitive signaled; if it is
already signaled there is no additional effect. -/
def Signal : EventState → EventState := fun _ => EventState.signaled

/-- Modelled from the spec: whether a Block call finds the primitive already
signaled and hence returns immediately, with no waiting. -/
def blockImmediate : EventState → Bool
  | EventState.signaled => true
  | EventState.idle => false

/-- Modelled from the spec: the state of the primitive once a Block call has
returned; returning consumes the signal, resetting the state to idle. -/
def Block : EventState → EventState := fun _ => EventState.idle

/-
Concrete channels, descriptors and traces used in witnesses, counterexamples
and bug evaluations. All three channels are OscilloscopeChannels (the
dynamic_cast succeeds), matching the reference-countable Channels of the spec.
-/

/-- A reference-countable channel with identity 1. -/
def chA : Channel := { id := 1, osc := true }

/-- A reference-countable channel with identity 2. -/
def chB : Channel := { id := 2, osc := true }

/-- A reference-countable channel with identity 3. -/
def chC : Channel := { id := 3, osc := true }

/-- Output 0 of channel chA. -/
def dA0 : StreamDescriptor := { m_channel := some chA, m_stream := 0 }

/-- Output 1 of channel chA: a descriptor whose stream index is not 0. -/
def dA1 : StreamDescriptor := { m_channel := some chA, m_stream := 1 }

/-- Output 0 of channel chB. -/
def dB0 : StreamDescriptor := { m_channel := some chB, m_stream := 0 }

/-- Output 0 of channel chC. -/
def dC0 : StreamDescriptor := { m_channel := some chC, m_stream := 0 }

/-- A registry holding the three descriptors dA0, dB0, dC0 in this display
order, obtained by three adds. -/
def st3 : MeasurementsDialog :=
  AddStream (AddStream (AddStream emptyDialog dA0) dB0) dC0

/-- Trace for the reference-count accounting witness: two distinct adds on
channel chA, a remove, and a reorder. -/
def trace3 : List Op := [Op.add dA0, Op.add dA1, Op.remove 0, Op.move dA1 0]

/-- Trace for the move-of-an-absent-descriptor scenario: the registry holds
dB0, then dA0, which is not tracked, is dragged onto row 0. -/
def trace6 : List Op := [Op.add dB0, Op.move dA0 0]

/-- A coordinator state whose control point is the poll call. -/
def pollingInit : CoordState :=
  { phase := Phase.polling, shutReads := 0, pollCalls := 0 }

/-- A coordinator state blocked on the processed handshake, with some reads
already performed. -/
def awaitState : CoordState :=
  { phase := Phase.awaitingConsumer, shutReads := 5, pollCalls := 7 }

/-- Oracle: every poll reports ready. -/
def pollAlways : Nat → Bool := fun _ => true

/-
Helper lemmas shared by the claim proofs.
-/

theorem hasStream_true_iff (d : MeasurementsDialog) (s : StreamDescriptor) :
    HasStream d s = true ↔ s ∈ d.m_streamset := by
  simp [HasStream]

theorem addStream_of_hasStream {d : MeasurementsDialog} {s : StreamDescriptor}
    (h : HasStream d s = true) : AddStream d s = d := by
  simp [AddStream, h]

/-- Per-operation bridge for the reference-count accounting: on a
reference-countable channel, the AddRef and Release calls of the source line up
exactly with the counting stated by the spec. -/
theorem refDelta_eq_specCount (d : MeasurementsDialog) (op : Op) (c : Channel)
    (hosc : c.osc = true) : refDelta d op c = specCount d op c := by
  cases op with
  | add s =>
      cases hhs : HasStream d s with
      | true => simp [refDelta, specCount, hhs]
      | false =>
          cases hch : s.m_channel with
          | none => simp [refDelta, specCount, hhs, hch, dynCastOsc]
          | some c0 =>
              by_cases hc0 : c0 = c
              · subst hc0
                simp [refDelta, specCount, hhs, hch, dynCastOsc, hosc]
              · cases ho : c0.osc <;>
                  simp [refDelta, specCount, hhs, hch, dynCastOsc, ho, hc0]
  | remove i =>
      cases hg : d.m_streams[i]? with
      | none => simp [refDelta, specCount, hg]
      | some s =>
          cases hch : s.m_channel with
          | none => simp [refDelta, specCount, hg, hch, dynCastOsc]
          | some c0 =>
              by_cases hc0 : c0 = c
              · subst hc0
                simp [refDelta, specCount, hg, hch, dynCastOsc, hosc]
              · cases ho : c0.osc <;>
                  simp [refDelta, specCount, hg, hch, dynCastOsc, ho, hc0]
  | move s dest => rfl

/-- C1: the claimed invariant — after any sequence of Add, Remove and Move
operations from the empty registry, the multiset of descriptors in m_streams
equals the contents of m_streamset — fails on this code. RemoveStream erases
the key StreamDescriptor(ochan, 0) from the set (the channel pointer converts
implicitly, with stream index 0) instead of the removed descriptor
m_streams[i]. Evaluating the code: adding dA1 (stream index 1) and then
removing position 0 leaves the sequence empty while the set still contains
dA1, so the state is not Coherent. The intent of the source is unambiguous
(AddStream inserts the same descriptor into both containers, and HasStream
consults the set as the mirror of the sequence), so this is a code bug: a
removed stream can never be re-added, since HasStream still reports it
present. -/
theorem C1_remove_desyncs_set :
    (runFrom emptyDialog [Op.add dA1, Op.remove 0]).map
        (fun st => (st.m_streams, st.m_streamset)) = some ([], {dA1}) ∧
    ¬ Coherent { m_streams := [], m_streamset := {dA1} } := by
  decide

/-- C2 counterexample: the claim says Remove on an out-of-range position fails
with an out-of-range error and leaves the registry unmodified — after the
failed call the registry would still be in its previous state. On the empty
registry, Remove(0) would then leave the empty registry intact. Instead the
code unconditionally evaluates m_streams[0].m_channel and
m_streams.erase(begin() + 0) on an empty vector: out-of-bounds accesses with
no defined result (none in this embedding), not an error return preserving
the state. -/
theorem C2_remove_oob_counterexample :
    ¬ RemoveStream emptyDialog 0 = some emptyDialog := by
  decide

/-- C2 amended: RemoveStream performs no bounds check. A position that is not
a valid index leads straight to an out-of-bounds vector access, which has no
defined result (modelled as none) — there is no out-of-range error path and no
guarantee that the registry is left unmodified. For every valid position the
removal executes and produces a defined successor state. -/
theorem C2_remove_no_bounds_check (st : MeasurementsDialog) (i : Nat) :
    (st.m_streams.length ≤ i → RemoveStream st i = none) ∧
    (i < st.m_streams.length → (RemoveStream st i).isSome = true) := by
  constructor
  · intro h
    simp [RemoveStream, List.getElem?_eq_none h]
  · intro h
    simp [RemoveStream, List.getElem?_eq_getElem h]

theorem C2_remove_no_bounds_check_witness :
    RemoveStream emptyDialog 0 = none ∧
    (RemoveStream (AddStream emptyDialog dA0) 0).isSome = true :=
  ⟨(C2_remove_no_bounds_check emptyDialog 0).1 (by decide),
   (C2_remove_no_bounds_check (AddStream emptyDialog dA0) 0).2 (by decide)⟩

/-- C3: reference-count accounting. For every starting state (in particular
every reachable state), every sequence of operations and every
reference-countable channel c, the net number of references the registry has
acquired on c (the sum of the AddRef and Release calls the code performs)
equals the number of Add calls for descriptors of c that were not no-ops minus
the number of successful Remove calls for descriptors of c: every non-no-op
Add increments exactly once and every successful Remove decrements exactly
once, and no other operation touches the count. -/
theorem C3_refcount_accounting (d : MeasurementsDialog) (ops : List Op)
    (c : Channel) (hosc : c.osc = true) :
    refsFrom d c ops = specNet d c ops := by
  induction ops generalizing d with
  | nil => rfl
  | cons op rest ih =>
      simp only [refsFrom, specNet, refDelta_eq_specCount d op c hosc]
      cases hstep : step d op with
      | none => rfl
      | some d2 => simp [ih]

theorem C3_refcount_accounting_witness :
    Channel.osc chA = true ∧
    refsFrom emptyDialog chA trace3 = specNet emptyDialog chA trace3 ∧
    refsFrom emptyDialog chA trace3 = 1 :=
  ⟨by decide, C3_refcount_accounting emptyDialog trace3 chA (by decide), by decide⟩

/-- C4: adding a descriptor that is already present (present in the sense the
code checks it: membership in the dedup set) is a no-op — the state, and hence
the size and ordering of the sequence, is unchanged — and performs no AddRef.
Consequently Add(d) immediately followed by Add(d) on a fresh registry leaves
the same registry as a single Add(d) and acquires exactly one reference (not
two) on the reference-countable channel of d. -/
theorem C4_duplicate_add_noop (st : MeasurementsDialog) (s : StreamDescriptor)
    (c : Channel) (hpresent : HasStream st s = true) (hch : s.m_channel = some c)
    (hosc : c.osc = true) :
    AddStream st s = st ∧
    refDelta st (Op.add s) c = 0 ∧
    runFrom emptyDialog [Op.add s, Op.add s] = some (AddStream emptyDialog s) ∧
    refsFrom emptyDialog c [Op.add s, Op.add s] = 1 := by
  have hfresh : HasStream emptyDialog s = false := by
    simp [HasStream, emptyDialog]
  have hsecond : HasStream (AddStream emptyDialog s) s = true := by
    simp [HasStream, AddStream, emptyDialog]
  refine ⟨addStream_of_hasStream hpresent, by simp [refDelta, hpresent], ?_, ?_⟩
  · simp [runFrom, step, addStream_of_hasStream hsecond]
  · simp [refsFrom, step, refDelta, hfresh, hsecond, hch, dynCastOsc, hosc]

theorem C4_duplicate_add_noop_witness :
    HasStream (AddStream emptyDialog dA0) dA0 = true ∧
    AddStream (AddStream emptyDialog dA0) dA0 = AddStream emptyDialog dA0 ∧
    refsFrom emptyDialog chA [Op.add dA0, Op.add dA0] = 1 :=
  ⟨by decide,
   (C4_duplicate_add_noop (AddStream emptyDialog dA0) dA0 chA (by decide)
      (by decide) (by decide)).1,
   (C4_duplicate_add_noop (AddStream emptyDialog dA0) dA0 chA (by decide)
      (by decide) (by decide)).2.2.2⟩

/-- C5: moving a descriptor that is present in a coherent registry is a pure
reordering: the new sequence is exactly the old one with the descriptor
removed from its current position and reinserted at the destination, the
multiset of descriptors is unchanged, the dedup set is unchanged, the moved
descriptor sits at the destination position, no reference count changes (the
move path performs no AddRef or Release), and coherence is preserved. -/
theorem C5_move_present_pure_reorder (st : MeasurementsDialog)
    (s : StreamDescriptor) (dest : Nat) (hco : Coherent st)
    (hmem : s ∈ st.m_streams) (hdest : dest < st.m_streams.length) :
    (MoveStream st s dest).m_streams = (st.m_streams.erase s).insertIdx dest s ∧
    ((MoveStream st s dest).m_streams : Multiset StreamDescriptor) =
      (st.m_streams : Multiset StreamDescriptor) ∧
    (MoveStream st s dest).m_streamset = st.m_streamset ∧
    (MoveStream st s dest).m_streams[dest]? = some s ∧
    (∀ c, refDelta st (Op.move s dest) c = 0) ∧
    Coherent (MoveStream st s dest) := by
  have hsset : s ∈ st.m_streamset := by
    have hms : s ∈ (st.m_streams : Multiset StreamDescriptor) :=
      Multiset.mem_coe.mpr hmem
    rw [hco.1] at hms
    exact Finset.mem_def.mpr hms
  have hlen : dest ≤ (st.m_streams.erase s).length := by
    have h1 : (st.m_streams.erase s).length + 1 = st.m_streams.length :=
      List.length_erase_add_one hmem
    omega
  have hperm : List.Perm ((st.m_streams.erase s).insertIdx dest s) st.m_streams :=
    (List.perm_insertIdx s _ hlen).trans (List.perm_cons_erase hmem).symm
  have hmul : ((st.m_streams.erase s).insertIdx dest s : Multiset StreamDescriptor) =
      (st.m_streams : Multiset StreamDescriptor) :=
    Multiset.coe_eq_coe.mpr hperm
  have hins : insert s st.m_streamset = st.m_streamset :=
    Finset.insert_eq_self.mpr hsset
  refine ⟨rfl, hmul, hins, ?_, fun c => rfl, ?_⟩
  · have hlt : dest < ((st.m_streams.erase s).insertIdx dest s).length := by
      rw [List.length_insertIdx dest _ hlen]
      omega
    show ((st.m_streams.erase s).insertIdx dest s)[dest]? = some s
    rw [List.getElem?_eq_getElem hlt, List.getElem_insertIdx_self _ _ _ hlen]
  · constructor
    · show ((st.m_streams.erase s).insertIdx dest s : Multiset StreamDescriptor) =
        (insert s st.m_streamset).val
      rw [hins, hmul, hco.1]
    · exact hperm.nodup_iff.mpr hco.2

theorem C5_move_present_pure_reorder_witness :
    Coherent st3 ∧ dC0 ∈ st3.m_streams ∧ 0 < st3.m_streams.length ∧
    (MoveStream st3 dC0 0).m_streams = [dC0, dA0, dB0] ∧
    (MoveStream st3 dC0 0).m_streamset = st3.m_streamset ∧
    refDelta st3 (Op.move dC0 0) chA = 0 :=
  ⟨by decide, by decide, by decide,
   ((C5_move_present_pure_reorder st3 dC0 0 (by decide) (by decide)
      (by decide)).1).trans (by decide),
   (C5_move_present_pure_reorder st3 dC0 0 (by decide) (by decide)
      (by decide)).2.2.1,
   (C5_move_present_pure_reorder st3 dC0 0 (by decide) (by decide)
      (by decide)).2.2.2.2.1 chA⟩

/-- C6: the claim — moving a descriptor that is absent behaves as Add followed
by a reposition, in particular acquiring exactly one reference on its channel
— fails on this code. The move handler inserts the dragged descriptor into the
sequence at the destination and into the dedup set, but contains no AddRef
call at all. Evaluating the code on a registry holding dB0, with the untracked
dA0 dragged onto row 0: dA0 ends up at position 0 of the sequence and in the
set, yet the number of references acquired on its channel chA is 0, not 1.
This contradicts the destructor and RemoveStream, which Release one reference
for a held descriptor: a stream that enters through this path leads to a
reference-count underflow, the fatal invariant violation of the spec. -/
theorem C6_move_absent_acquires_no_reference :
    (runFrom emptyDialog trace6).map (fun st => (st.m_streams, st.m_streamset)) =
      some ([dA0, dB0], {dA0, dB0}) ∧
    refsFrom emptyDialog chA trace6 = 0 := by
  decide

/-- C7: the coordinator cycle. A loop iteration whose poll reports not ready
emits exactly one sleep call, downloads nothing, signals nothing, and returns
to the top of the loop to retry; an iteration whose poll reports ready
downloads exactly once, then signals ready exactly once, then blocks on the
processed handshake. In the concrete scenario where the poll returns false
three times and then true, with the shutdown flag never set, the run sleeps
three times, downloads once, signals ready once, and is then blocked in
awaitingConsumer — further steps with the processed event unsignaled change
nothing. -/
theorem C7_coordinator_cycle (shut poll : Nat → Bool) (b : Bool)
    (s : CoordState) :
    (s.phase = Phase.polling → poll s.pollCalls = false →
      (coordStep shut poll b s).1.phase = Phase.checkShutdown ∧
      (coordStep shut poll b s).2 = [CoordEvent.sleep1ms]) ∧
    (s.phase = Phase.polling → poll s.pollCalls = true →
      (coordSteps shut poll b 2 s).1.phase = Phase.awaitingConsumer ∧
      (coordSteps shut poll b 2 s).2 = [CoordEvent.download, CoordEvent.signalReady]) ∧
    coordSteps shutNever pollFFFT false 10 coordInit =
      ({ phase := Phase.awaitingConsumer, shutReads := 4, pollCalls := 4 },
       [CoordEvent.sleep1ms, CoordEvent.sleep1ms, CoordEvent.sleep1ms,
        CoordEvent.download, CoordEvent.signalReady]) ∧
    coordSteps shutNever pollFFFT false 13 coordInit =
      ({ phase := Phase.awaitingConsumer, shutReads := 4, pollCalls := 4 },
       [CoordEvent.sleep1ms, CoordEvent.sleep1ms, CoordEvent.sleep1ms,
        CoordEvent.download, CoordEvent.signalReady]) := by
  refine ⟨?_, ?_, by decide, by decide⟩
  · intro hph hpoll
    constructor <;> simp [coordStep, hph, hpoll]
  · intro hph hpoll
    constructor <;> simp [coordSteps, coordStep, hph, hpoll]

theorem C7_coordinator_cycle_witness :
    CoordState.phase pollingInit = Phase.polling ∧
    pollNever (CoordState.pollCalls pollingInit) = false ∧
    (coordStep shutNever pollNever false pollingInit).2 = [CoordEvent.sleep1ms] ∧
    pollAlways (CoordState.pollCalls pollingInit) = true ∧
    (coordSteps shutNever pollAlways false 2 pollingInit).2 =
      [CoordEvent.download, CoordEvent.signalReady] :=
  ⟨rfl, rfl,
   ((C7_coordinator_cycle shutNever pollNever false pollingInit).1 rfl rfl).2,
   rfl,
   ((C7_coordinator_cycle shutNever pollAlways false pollingInit).2.1 rfl rfl).2⟩

/-- C8: shutdown observation. The shutdown flag is read only at the top of the
loop: a step from any other control point leaves the count of flag reads
unchanged. While the coordinator is blocked in awaitingConsumer and the
processed event is not signaled, a step changes nothing — in particular it
does not terminate, whatever the value of the shutdown flag. Once the
processed event is signaled, the coordinator wakes, reads the flag at the top
of the loop, and — the flag being set — terminates immediately, emitting no
poll, sleep, download or signal, i.e. without starting a new polling phase. -/
theorem C8_shutdown_observation (shut poll : Nat → Bool) (b : Bool)
    (s : CoordState) :
    (s.phase = Phase.awaitingConsumer → coordStep shut poll false s = (s, [])) ∧
    (s.phase = Phase.awaitingConsumer → shut s.shutReads = true →
      (coordSteps shut poll true 2 s).1.phase = Phase.terminated ∧
      (coordSteps shut poll true 2 s).2 = [CoordEvent.wakeProcessed]) ∧
    (s.phase ≠ Phase.checkShutdown →
      (coordStep shut poll b s).1.shutReads = s.shutReads) := by
  refine ⟨?_, ?_, ?_⟩
  · intro hph
    simp [coordStep, hph]
  · intro hph hshut
    constructor <;> simp [coordSteps, coordStep, hph, hshut]
  · intro hph
    cases hp : s.phase with
    | checkShutdown => exact absurd hp hph
    | polling =>
        simp only [coordStep, hp]
        split <;> rfl
    | downloading => simp [coordStep, hp]
    | awaitingConsumer =>
        simp only [coordStep, hp]
        split <;> rfl
    | terminated => simp [coordStep, hp]

theorem C8_shutdown_observation_witness :
    CoordState.phase awaitState = Phase.awaitingConsumer ∧
    shutAlways (CoordState.shutReads awaitState) = true ∧
    coordStep shutAlways pollNever false awaitState = (awaitState, []) ∧
    (coordSteps shutAlways pollNever true 2 awaitState).1.phase = Phase.terminated ∧
    (coordSteps shutAlways pollNever true 2 awaitState).2 = [CoordEvent.wakeProcessed] ∧
    (coordStep shutAlways pollNever true awaitState).1.shutReads =
      CoordState.shutReads awaitState :=
  ⟨rfl, rfl,
   (C8_shutdown_observation shutAlways pollNever true awaitState).1 rfl,
   ((C8_shutdown_observation shutAlways pollNever true awaitState).2.1 rfl rfl).1,
   ((C8_shutdown_observation shutAlways pollNever true awaitState).2.1 rfl rfl).2,
   (C8_shutdown_observation shutAlways pollNever true awaitState).2.2 (by decide)⟩

/-- C9: binary auto-reset semantics of the handshake primitive, from every
state: a second Signal has no additional effect (Signal is idempotent, not
counting); Block on a signaled primitive returns immediately and leaves the
primitive idle; and after two Signal calls with no intervening Block, exactly
one Block returns immediately — the state after that Block is idle, so a
second Block does not return immediately (the second wake is not queued). -/
theorem C9_event_binary_autoreset (e : EventState) :
    Signal (Signal e) = Signal e ∧
    blockImmediate (Signal e) = true ∧
    Block (Signal e) = EventState.idle ∧
    blockImmediate (Block (Signal (Signal e))) = false :=
  ⟨rfl, rfl, rfl, rfl⟩

/-- C10: the shutdown flag is re-sampled before every poll attempt. The
polling control point is only ever entered from the top of the loop, by a step
that read the flag and found it false — so every poll, including every 1 ms
retry, is preceded by a fresh read of the flag. Consequently, if every poll
reports not ready and the flag is set (reads true from here on), the
coordinator terminates within two steps — at most one more retry — with the
processed handshake never signaled. -/
theorem C10_shutdown_resampled_each_retry (shut poll : Nat → Bool) (b : Bool)
    (s : CoordState) :
    ((coordStep shut poll b s).1.phase = Phase.polling →
      s.phase = Phase.checkShutdown ∧ shut s.shutReads = false) ∧
    ((s.phase = Phase.checkShutdown ∨ s.phase = Phase.polling) →
      (∀ k, shut k = true) → (∀ k, poll k = false) →
      (coordSteps shut poll false 2 s).1.phase = Phase.terminated) := by
  constructor
  · intro h
    cases hp : s.phase with
    | checkShutdown =>
        cases hs : shut s.shutReads with
        | true => simp [coordStep, hp, hs] at h
        | false => exact ⟨rfl, rfl⟩
    | polling =>
        cases hpo : poll s.pollCalls with
        | true => simp [coordStep, hp, hpo] at h
        | false => simp [coordStep, hp, hpo] at h
    | downloading => simp [coordStep, hp] at h
    | awaitingConsumer =>
        cases b with
        | true => simp [coordStep, hp] at h
        | false => simp [coordStep, hp] at h
    | terminated => simp [coordStep, hp] at h
  · intro hor hshut hpoll
    cases hor with
    | inl h => simp [coordSteps, coordStep, h, hshut s.shutReads]
    | inr h =>
        simp [coordSteps, coordStep, h, hpoll s.pollCalls, hshut s.shutReads]

theorem C10_shutdown_resampled_each_retry_witness :
    (coordStep shutNever pollNever false coordInit).1.phase = Phase.polling ∧
    (CoordState.phase coordInit = Phase.checkShutdown ∧
      shutNever (CoordState.shutReads coordInit) = false) ∧
    (coordSteps shutAlways pollNever false 2 pollingInit).1.phase = Phase.terminated :=
  ⟨by decide,
   (C10_shutdown_resampled_each_retry shutNever pollNever false coordInit).1
     (by decide),
   (C10_shutdown_resampled_each_retry shutAlways pollNever false pollingInit).2
     (Or.inr rfl) (fun _ => rfl) (fun _ => rfl)⟩

end NgScope
